import Mathlib

/-!
Verification of the mcp-server gateway: a shallow embedding of the service
registry (internal/core), the multiplexing HTTP gateway
(internal/multiplexer/server.go), the Superset authenticated-session client
(internal/services/superset/client.go) and the common tool-call response
constructors (internal/common/response.go), together with proofs of the
behavioural properties claimed by the specification.

Go maps are embedded as association lists with Go's unique-key lookup
semantics, Go slices whose aliasing matters are embedded through an explicit
heap of numbered allocations, machine time is a natural number of
nanoseconds, and every fallible operation returns an `Except`.
-/

namespace McpServer

/-- Go `type ServiceType string` (internal/core). -/
abbrev ServiceType := String

/-- `core.ServiceTypePrometheus`. -/
def ServiceTypePrometheus : ServiceType := "prometheus"

/-- `core.ServiceTypeSuperset`. -/
def ServiceTypeSuperset : ServiceType := "superset"

/-- Association-list embedding of a Go map read `m[k]`: the unique binding
for `k`, if any (Go maps never hold duplicate keys; on lists with duplicate
keys this reads the first, and every state built by `mapSet`/`mapDel` from a
duplicate-free list stays duplicate-free). -/
def mapGet {α : Type} (m : List (String × α)) (k : String) : Option α :=
  match m with
  | [] => none
  | (k', v) :: rest => if k' = k then some v else mapGet rest k

/-- Go map assignment `m[k] = v`: replace the binding for `k`, or append one. -/
def mapSet {α : Type} (m : List (String × α)) (k : String) (v : α) :
    List (String × α) :=
  match m with
  | [] => [(k, v)]
  | (k', v') :: rest =>
    if k' = k then (k, v) :: rest else (k', v') :: mapSet rest k v

/-- Go `delete(m, k)`: remove the binding for `k`. -/
def mapDel {α : Type} (m : List (String × α)) (k : String) :
    List (String × α) :=
  m.filter (fun kv => kv.1 ≠ k)

/-- A `core.Service` value: the uniform adapter interface. `serverId`
stands for the identity of the `*mcp.Server` returned by `GetServer`, and
`stype`/`endpoint` are the stable values returned by `GetType` and
`GetEndpoint`. -/
structure Service where
  serverId : Nat
  stype : ServiceType
  endpoint : String
deriving DecidableEq, Repr

/-- A `core.ServiceConfig` value (the interface's observable methods). -/
structure ServiceConfig where
  getType : ServiceType
  getEndpoint : String
  isEnabled : Bool
deriving DecidableEq, Repr

/-- The error values produced by the core package (core/errors). -/
inductive GoError where
  /-- `core.UnsupportedServiceError` with its `ServiceType` field. -/
  | unsupportedService (st : ServiceType)
  /-- `core.ServiceCreationError` wrapping a cause. -/
  | creationFailed (st : ServiceType) (msg : String)
  /-- any other Go error, by its message. -/
  | msg (s : String)
deriving DecidableEq, Repr

/-- `core.ServiceFactory`: `func(config ServiceConfig, timeout time.Duration)
(Service, error)`.  Timeouts are nanosecond counts. -/
abbrev ServiceFactory := ServiceConfig → Nat → Except GoError Service

/-! ### Registry state (internal/core, part_003)

The registry's package-level state: the factory map `serviceFactories`, the
cached kinds slice `supportedTypesCache` (a Go slice variable, `nil` until
first filled — embedded as an `Option` of a heap allocation id) and the
`cacheValid` flag.  Slices returned to callers alias heap allocations, so a
heap of numbered allocations makes copying versus aliasing explicit. -/

/-- The heap of `[]ServiceType` slice allocations: contents per allocation
id, plus the next fresh id. -/
structure SliceHeap where
  contents : Nat → List ServiceType
  nextId : Nat

/-- `make([]ServiceType, ...)` followed by filling: a fresh allocation. -/
def SliceHeap.alloc (h : SliceHeap) (data : List ServiceType) :
    Nat × SliceHeap :=
  (h.nextId,
   { contents := fun i => if i = h.nextId then data else h.contents i,
     nextId := h.nextId + 1 })

/-- An in-place mutation of the slice at allocation `i` (what a caller does
when it writes through a returned slice). -/
def SliceHeap.write (h : SliceHeap) (i : Nat) (data : List ServiceType) :
    SliceHeap :=
  { contents := fun j => if j = i then data else h.contents j,
    nextId := h.nextId }

/-- The package-level registry state of internal/core. -/
structure RegistryState where
  serviceFactories : List (ServiceType × ServiceFactory)
  supportedTypesCache : Option Nat
  cacheValid : Bool

/-- The registry state at process start: empty map, `nil` cache, invalid. -/
def RegistryState.initial : RegistryState :=
  { serviceFactories := [], supportedTypesCache := none, cacheValid := false }

/-- The empty slice heap. -/
def SliceHeap.empty : SliceHeap := { contents := fun _ => [], nextId := 0 }

/-- `core.RegisterServiceFactory`: store/overwrite the factory for the kind
and invalidate the kinds cache. -/
def RegisterServiceFactory (s : RegistryState) (serviceType : ServiceType)
    (factory : ServiceFactory) : RegistryState :=
  { s with serviceFactories := mapSet s.serviceFactories serviceType factory,
           cacheValid := false }

/-- `core.CreateService`: look up the factory for `config.GetType()`; absent
kinds fail with `UnsupportedServiceError` and invoke nothing, present kinds
invoke the factory once.  The second component is the trace of factory
invocations the call performed (kind invoked, in order). -/
def CreateService (s : RegistryState) (config : ServiceConfig)
    (timeout : Nat) : Except GoError Service × List ServiceType :=
  match mapGet s.serviceFactories config.getType with
  | none => (Except.error (GoError.unsupportedService config.getType), [])
  | some factory => (factory config timeout, [config.getType])

/-- `core.GetSupportedServiceTypes`: on a valid cache, return a fresh copy
of the cached slice; otherwise rebuild the kinds list from the factory map,
store a copy of it as the new cache, mark the cache valid, and return the
rebuilt slice.  Returns the allocation id handed to the caller, the updated
registry state and the updated heap. -/
def GetSupportedServiceTypes (s : RegistryState) (h : SliceHeap) :
    Nat × RegistryState × SliceHeap :=
  match s.supportedTypesCache, s.cacheValid with
  | some c, true =>
    let (r, h') := h.alloc (h.contents c)
    (r, s, h')
  | _, _ =>
    let types := s.serviceFactories.map Prod.fst
    let (typesId, h1) := h.alloc types
    let (cacheId, h2) := h1.alloc (h1.contents typesId)
    (typesId,
     { s with supportedTypesCache := some cacheId, cacheValid := true },
     h2)

/-- `core.IsServiceTypeSupported`. -/
def IsServiceTypeSupported (s : RegistryState) (serviceType : ServiceType) :
    Bool :=
  (mapGet s.serviceFactories serviceType).isSome

/-- Well-formedness of the registry state against the heap: the cached
slice, when present, is a live allocation. -/
def RegistryWF (s : RegistryState) (h : SliceHeap) : Prop :=
  ∀ c, s.supportedTypesCache = some c → c < h.nextId

/-! ### Multiplexing gateway (internal/multiplexer/server.go) -/

/-- The mutable routing state of `multiplexer.Server`: the
`endpoint -> service` map guarded by `mu`. -/
structure MuxState where
  services : List (String × Service)
deriving DecidableEq, Repr

/-- `Server.AddService`: insert the service keyed by its endpoint,
overwriting any previous adapter at that path. -/
def MuxState.addService (s : MuxState) (svc : Service) : MuxState :=
  { services := mapSet s.services svc.endpoint svc }

/-- `Server.RemoveService`: when an adapter is mounted at `endpoint`, call
its `Close` and delete the mapping; otherwise do nothing.  The second
component lists the services whose `Close` the call invoked. -/
def MuxState.removeService (s : MuxState) (endpoint : String) :
    MuxState × List Service :=
  match mapGet s.services endpoint with
  | some svc => ({ services := mapDel s.services endpoint }, [svc])
  | none => (s, [])

/-- The handler set `Server.Start` installs into its `http.ServeMux`: one
handler per endpoint of the snapshot `servicesCopy`, each handler's closure
holding the snapshotted service whose `GetServer()` it returns on every
request. -/
def MuxState.start (s : MuxState) : List (String × Service) :=
  s.services

/-- Dispatch of one inbound request by the mux built at `Start` time: a
request to a mounted endpoint path is answered by the `*mcp.Server` of the
service captured in that endpoint's handler; any other path falls to the
root handler (status page or 404), yielding no adapter. -/
def handleRequest (handlers : List (String × Service)) (path : String) :
    Option Nat :=
  (mapGet handlers path).map Service.serverId

/-- A routing-table mutation made through the gateway's public API. -/
inductive MuxOp where
  | add (svc : Service)
  | remove (endpoint : String)
deriving DecidableEq, Repr

/-- Apply one public mutation to the routing table. -/
def MuxState.applyOp (s : MuxState) : MuxOp → MuxState
  | MuxOp.add svc => s.addService svc
  | MuxOp.remove e => (s.removeService e).1

/-- The running gateway after `Start`: the live routing table, still
mutable through `AddService`/`RemoveService`, and the handler set the
listener actually serves with (fixed at `Start`). -/
structure RunningMux where
  live : MuxState
  handlers : List (String × Service)
deriving DecidableEq, Repr

/-- `Start` on state `s`: the listener begins serving the handlers built
from the snapshot of `s`. -/
def MuxState.startSystem (s : MuxState) : RunningMux :=
  { live := s, handlers := s.start }

/-- `AddService`/`RemoveService` after `Start` mutate the routing table
only; the `http.ServeMux` the listener holds is untouched. -/
def RunningMux.applyOps (r : RunningMux) (ops : List MuxOp) : RunningMux :=
  { r with live := ops.foldl MuxState.applyOp r.live }

/-- What the running listener answers for a request to `path`. -/
def RunningMux.dispatch (r : RunningMux) (path : String) : Option Nat :=
  handleRequest r.handlers path

/-! ### Authenticated session client (internal/services/superset/client.go)

The client's mutable state (`loggedIn`, `csrfCache`) is passed explicitly;
each HTTP round trip the code performs is passed in as its outcome (a
transport error or a response), and each embedded method additionally
returns the number of network requests of the relevant kind it issued. -/

/-- The observable parts of an `*http.Response`: status code, `Location`
header (empty when absent) and the fully read body. -/
structure HttpResponse where
  statusCode : Nat
  location : String
  body : String
deriving DecidableEq, Repr

/-- `superset.csrfTokenCache`. -/
structure CsrfTokenCache where
  token : String
  expiresAt : Nat
deriving DecidableEq, Repr

/-- The session state of `superset.Client` guarded by `mu`. -/
structure ClientState where
  loggedIn : Bool
  csrfCache : CsrfTokenCache
deriving DecidableEq, Repr

/-- The zero-valued client session state a fresh `NewClient` carries. -/
def ClientState.initial : ClientState :=
  { loggedIn := false, csrfCache := { token := "", expiresAt := 0 } }

/-- `csrfTokenCacheDuration = 5 * time.Minute`, in nanoseconds. -/
def csrfTokenCacheDuration : Nat := 300000000000

/-- Boolean sublist search: does `pat` occur contiguously in `s`? -/
def listInfixSearch (pat : List Char) : List Char → Bool
  | [] => pat.isEmpty
  | c :: rest => pat.isPrefixOf (c :: rest) || listInfixSearch pat rest

/-- Go `strings.Contains s sub`. -/
def strContainsSub (s sub : String) : Bool :=
  listInfixSearch sub.toList s.toList

/-- The capture group `([^"]*)"` of the token pattern: the characters up to
the next double quote, failing when no closing quote follows. -/
def takeUntilQuote : List Char → Option (List Char)
  | [] => none
  | c :: rest =>
    if c = '"' then some [] else (takeUntilQuote rest).map (fun t => c :: t)

/-- The `[^>]*value="([^"]*)"` tail of the token pattern, matched with the
regexp engine's leftmost-first (backtracking) preference: the greedy `[^>]*`
consumes as long a run of non-`>` characters as possible, so among the
`value="` occurrences reachable without crossing a `>` the *last* one whose
capture closes with a quote wins, falling back to earlier occurrences when
a later one has no closing quote. -/
def scanValueGreedy : List Char → Option (List Char)
  | [] => none
  | c :: rest =>
    match if c ≠ '>' then scanValueGreedy rest else none with
    | some captured => some captured
    | none =>
      if "value=\"".toList.isPrefixOf (c :: rest) then
        takeUntilQuote ((c :: rest).drop 7)
      else none

/-- `csrfTokenRegex.FindStringSubmatch` for the pattern
`name="csrf_token"[^>]*value="([^"]*)"`: try every start position from the
left — i.e. every occurrence of the `name="csrf_token"` literal — and
return the capture of the first occurrence whose tail matches, as the
engine does; `none` when no start position matches. -/
def findCsrfSubmatch : List Char → Option (List Char)
  | [] => none
  | c :: rest =>
    if "name=\"csrf_token\"".toList.isPrefixOf (c :: rest) then
      match scanValueGreedy ((c :: rest).drop 17) with
      | some captured => some captured
      | none => findCsrfSubmatch rest
    else findCsrfSubmatch rest

/-- `csrfTokenRegex.FindStringSubmatch`: the captured token of the leftmost
match, or `none` when the pattern does not match anywhere. -/
def extractCsrfToken (body : String) : Option String :=
  (findCsrfSubmatch body.toList).map String.mk

/-- `Client.getCSRFToken`: fast-path check of the cache, then (under the
exclusive lock, re-checking) one GET of the login page, pattern extraction,
and caching with the fixed time-to-live.  `now` is the current time and
`fetchOutcome` the outcome of the login-page GET, used only when a fetch is
issued; the last component counts the fetches issued. -/
def Client.getCSRFToken (st : ClientState) (now : Nat)
    (fetchOutcome : Except String HttpResponse) :
    ClientState × Except String String × Nat :=
  if st.csrfCache.token ≠ "" ∧ now < st.csrfCache.expiresAt then
    (st, Except.ok st.csrfCache.token, 0)
  else
    match fetchOutcome with
    | Except.error e => (st, Except.error ("获取登录页面失败: " ++ e), 1)
    | Except.ok resp =>
      match extractCsrfToken resp.body with
      | none => (st, Except.error "未找到CSRF令牌", 1)
      | some token =>
        ({ st with
           csrfCache :=
             { token := token, expiresAt := now + csrfTokenCacheDuration } },
         Except.ok token, 1)

/-- `Client.getCSRFTokenForLogin`: one GET of the login page and pattern
extraction, never consulting or filling the cache. -/
def Client.getCSRFTokenForLogin (fetchOutcome : Except String HttpResponse) :
    Except String String :=
  match fetchOutcome with
  | Except.error e => Except.error ("获取登录页面失败: " ++ e)
  | Except.ok resp =>
    match extractCsrfToken resp.body with
    | none => Except.error "未找到CSRF令牌"
    | some token => Except.ok token

/-- `Client.isSuccessfulRedirect`. -/
def isSuccessfulRedirect (location : String) : Bool :=
  strContainsSub location "/superset/welcome" || location = "/" ||
    strContainsSub location "/superset"

/-- `Client.isLoginError`: the known authentication-failure markers. -/
def isLoginError (body : String) : Bool :=
  strContainsSub body "Invalid login" ||
    strContainsSub body "Invalid username or password" ||
    strContainsSub body "Authentication failed"

/-- `Client.isLoginSuccess`: the known success markers of a 200 page. -/
def isLoginSuccess (body : String) : Bool :=
  strContainsSub body "superset" && strContainsSub body "dashboard"

/-- `Client.Login` (the slow path of `ensureLoggedIn`), under the exclusive
lock: re-check `loggedIn`, fetch a fresh CSRF token from the login page
(`pageOutcome`), POST the credential form (`postOutcome`) and classify the
response; the last component counts the login POSTs issued. -/
def Client.login (st : ClientState)
    (pageOutcome postOutcome : Except String HttpResponse) :
    ClientState × Except String Unit × Nat :=
  if st.loggedIn then (st, Except.ok (), 0)
  else
    match Client.getCSRFTokenForLogin pageOutcome with
    | Except.error e => (st, Except.error ("获取CSRF令牌失败: " ++ e), 0)
    | Except.ok _ =>
      match postOutcome with
      | Except.error e => (st, Except.error ("发送请求失败: " ++ e), 1)
      | Except.ok resp =>
        if (resp.statusCode = 302 ∨ resp.statusCode = 303) ∧
            isSuccessfulRedirect resp.location then
          ({ st with loggedIn := true }, Except.ok (), 1)
        else if resp.statusCode = 200 then
          if isLoginError resp.body then
            (st, Except.error "用户名或密码错误", 1)
          else if isLoginSuccess resp.body then
            ({ st with loggedIn := true }, Except.ok (), 1)
          else (st, Except.error "登录失败", 1)
        else
          (st, Except.error ("登录失败，状态码: " ++ toString resp.statusCode), 1)

/-- A login response is classified successful exactly when the code sets
`loggedIn`: a 302/303 redirect to a known post-login location, or a 200
page with the success markers and without a failure marker. -/
def loginSuccessClass (resp : HttpResponse) : Bool :=
  ((resp.statusCode = 302 || resp.statusCode = 303) &&
      isSuccessfulRedirect resp.location) ||
    (resp.statusCode = 200 && !isLoginError resp.body &&
      isLoginSuccess resp.body)

/-! ### JSON decoding (GetDatabases) and SQL result normalization

`encoding/json` values are embedded as a `Json` inductive (numbers as
integers — the decoded `Database` fields are ints and strings), and the
decoding into `Database`, `[]Database` and the envelope struct follows
`json.Unmarshal`'s semantics: unknown object keys are ignored, absent keys
and `null` leave the zero value, and type mismatches fail. -/

/-- A parsed JSON value. -/
inductive Json where
  | null
  | bool (b : Bool)
  | num (n : Int)
  | str (s : String)
  | arr (elems : List Json)
  | obj (fields : List (String × Json))

/-- `superset.Database`. -/
structure Database where
  id : Int
  databaseName : String
  backend : String
  sqlalchemyUri : String
  createdOn : String
  changedOn : String
deriving DecidableEq, Repr

/-- The zero-valued `Database`. -/
def Database.zero : Database :=
  { id := 0, databaseName := "", backend := "", sqlalchemyUri := "",
    createdOn := "", changedOn := "" }

/-- One character's case-folded code point (ASCII upper case folded to
lower case). -/
def foldNat (c : Char) : Nat :=
  if 65 ≤ c.toNat ∧ c.toNat ≤ 90 then c.toNat + 32 else c.toNat

/-- `strings.EqualFold` as `json.Unmarshal` uses it to match object keys to
struct field names (the field tags here are ASCII, where per-character
ASCII case folding coincides with Go's fold). -/
def eqFold (a b : String) : Bool :=
  a.toList.map foldNat = b.toList.map foldNat

/-- `json.Unmarshal`'s effective value for the struct field named `name`:
object keys are matched to the field preferring an exact match but also
accepting a case-insensitive one, and the decoder streams the object's
entries in order with each matching entry assigning the field, so with
duplicate matching keys the last one wins. -/
def jsonFieldGet (fields : List (String × Json)) (name : String) :
    Option Json :=
  match fields with
  | [] => none
  | (k, v) :: rest =>
    match jsonFieldGet rest name with
    | some v' => some v'
    | none => if eqFold k name then some v else none

/-- `json.Unmarshal` of a field value into an `int` field: absent (`none`)
or `null` leaves the zero value, a number decodes, anything else fails. -/
def decodeIntField (v : Option Json) : Except String Int :=
  match v with
  | none => Except.ok 0
  | some Json.null => Except.ok 0
  | some (Json.num n) => Except.ok n
  | some _ => Except.error "cannot unmarshal value into field of type int"

/-- `json.Unmarshal` of a field value into a `string` field. -/
def decodeStringField (v : Option Json) : Except String String :=
  match v with
  | none => Except.ok ""
  | some Json.null => Except.ok ""
  | some (Json.str s) => Except.ok s
  | some _ => Except.error "cannot unmarshal value into field of type string"

/-- `json.Unmarshal` of one element into a `Database`. -/
def decodeDatabase (j : Json) : Except String Database :=
  match j with
  | Json.null => Except.ok Database.zero
  | Json.obj fields => do
    let id ← decodeIntField (jsonFieldGet fields "id")
    let databaseName ← decodeStringField (jsonFieldGet fields "database_name")
    let backend ← decodeStringField (jsonFieldGet fields "backend")
    let sqlalchemyUri ← decodeStringField (jsonFieldGet fields "sqlalchemy_uri")
    let createdOn ← decodeStringField (jsonFieldGet fields "created_on")
    let changedOn ← decodeStringField (jsonFieldGet fields "changed_on")
    Except.ok
      { id := id, databaseName := databaseName, backend := backend,
        sqlalchemyUri := sqlalchemyUri, createdOn := createdOn,
        changedOn := changedOn }
  | _ => Except.error "cannot unmarshal value into Database"

/-- `json.Unmarshal` of a body into `[]Database` (the bare-array shape). -/
def decodeDatabaseList (j : Json) : Except String (List Database) :=
  match j with
  | Json.null => Except.ok []
  | Json.arr elems => elems.mapM decodeDatabase
  | _ => Except.error "cannot unmarshal value into []Database"

/-- `json.Unmarshal` of a body into the anonymous envelope struct
`struct { Result []Database }`: any JSON object decodes — the `Result`
field takes the last object entry whose key matches `result`
case-insensitively, and when no entry matches (or the matched value is
`null`) the nil slice remains —, `null` leaves the zero struct, and any
other shape fails. -/
def decodeEnvelope (j : Json) : Except String (List Database) :=
  match j with
  | Json.null => Except.ok []
  | Json.obj fields =>
    match jsonFieldGet fields "result" with
    | none => Except.ok []
    | some v => decodeDatabaseList v
  | _ => Except.error "cannot unmarshal value into struct"

/-- The decoding step of `Client.GetDatabases` on a 200 body: first the
envelope decode, falling back to the bare-array decode only when the
envelope decode fails. -/
def decodeGetDatabases (body : Json) : Except String (List Database) :=
  match decodeEnvelope body with
  | Except.ok result => Except.ok result
  | Except.error _ =>
    match decodeDatabaseList body with
    | Except.ok databases => Except.ok databases
    | Except.error e => Except.error ("解析响应失败: " ++ e)

/-- One column descriptor of the Superset SQL-execution response; the code
projects rows through the `name` field. -/
structure SupersetColumn where
  columnName : String
  name : String
  ctype : String
deriving DecidableEq, Repr

/-- The decoded Superset SQL-execution response body used by
`executeSQLInternal`: `data` rows are JSON objects (`map[string]any`). -/
structure SupersetResponse where
  queryId : Int
  status : String
  data : List (List (String × Json))
  columns : List SupersetColumn
  querySql : String

/-- `superset.SQLResult`, cells being JSON values (`nil` is `Json.null`). -/
structure SQLResult where
  columns : List String
  data : List (List Json)
  query : String
  status : String

/-- Go `row[key]` on a `map[string]any` row object: the value, or the zero
value `nil` (JSON `null`) when the key is absent. -/
def rowCell (row : List (String × Json)) (key : String) : Json :=
  match mapGet row key with
  | some v => v
  | none => Json.null

/-- The normalization tail of `Client.executeSQLInternal`: the column-name
list from the backend's column descriptors, and each backend row object
re-projected positionally through that same descriptor ordering. -/
def normalizeSQLResult (r : SupersetResponse) : SQLResult :=
  { columns := r.columns.map SupersetColumn.name,
    data := r.data.map (fun row => r.columns.map (fun col => rowCell row col.name)),
    query := r.querySql,
    status := r.status }

/-! ### Concurrent client interleavings (client.go, `mu sync.RWMutex`)

Two threads of one `superset.Client`, each running either `getCSRFToken` or
`ensureLoggedIn`/`Login`, as a finite transition system.  Each atomic step
is one of the code's lock-protected actions; the two fields of the CSRF
cache are written in two separate steps (so that a partially-written entry
is a real intermediate state), the exclusive lock is held across the
double check, the network round trip and the cache/flag writes exactly as
the code holds `mu`, and a fast-path read (`mu.RLock`) is enabled whenever
no writer holds the lock.  Time is frozen below the token time-to-live, so
a cached token never expires during the run; the token fetched by thread
`i` is tagged `i` so that "the token written by the first fetcher" is
observable.  The login POST is given a success response. -/

/-- Which client method a thread is executing. -/
inductive Prog where
  | csrf
  | login
deriving DecidableEq, Repr

/-- A thread's program counter (with the data its local variables hold). -/
inductive TState where
  /-- the shared-lock fast-path check. -/
  | fastCheck
  /-- waiting on `mu.Lock()`. -/
  | acquire
  /-- holding the lock, about to re-check (double-checked pattern). -/
  | critical
  /-- holding the lock, network GET of the login page in flight. -/
  | fetching
  /-- holding the lock, writing `csrfCache.token`. -/
  | writeTok (t : Fin 2)
  /-- holding the lock, writing `csrfCache.expiresAt`. -/
  | writeExp (t : Fin 2)
  /-- holding the lock, login POST in flight. -/
  | posting
  /-- holding the lock, writing `loggedIn`. -/
  | writeLogin
  /-- `mu.Unlock()` with the value about to be returned. -/
  | releasing (res : Option (Fin 2))
  /-- returned; a `getCSRFToken` thread carries the token it returned. -/
  | done (res : Option (Fin 2))
deriving DecidableEq, Repr

/-- The shared state of one client plus the two thread states. -/
structure CState where
  prog0 : Prog
  prog1 : Prog
  lock : Option (Fin 2)
  tokenVal : Option (Fin 2)
  expiryOk : Bool
  loggedIn : Bool
  csrfFetches : Nat
  loginPosts : Nat
  t0 : TState
  t1 : TState
deriving DecidableEq, Repr

/-- Thread `i`'s program. -/
def CState.progOf (g : CState) (i : Fin 2) : Prog :=
  if i = 0 then g.prog0 else g.prog1

/-- Thread `i`'s state. -/
def CState.threadOf (g : CState) (i : Fin 2) : TState :=
  if i = 0 then g.t0 else g.t1

/-- Replace thread `i`'s state. -/
def CState.setThread (g : CState) (i : Fin 2) (ts : TState) : CState :=
  if i = 0 then { g with t0 := ts } else { g with t1 := ts }

/-- One atomic step of thread `i`, when enabled: the faithful small steps
of `getCSRFToken` (fast check, lock acquisition, double check, page fetch,
two cache-field writes, unlock) and of `ensureLoggedIn`/`Login` (fast
check, lock acquisition, double check, page fetch, credential POST,
`loggedIn` write, unlock). -/
def stepThread (g : CState) (i : Fin 2) : Option CState :=
  match g.progOf i, g.threadOf i with
  | Prog.csrf, TState.fastCheck =>
    if g.lock = none then
      match g.tokenVal, g.expiryOk with
      | some t, true => some (g.setThread i (TState.done (some t)))
      | _, _ => some (g.setThread i TState.acquire)
    else none
  | Prog.login, TState.fastCheck =>
    if g.lock = none then
      if g.loggedIn then some (g.setThread i (TState.done none))
      else some (g.setThread i TState.acquire)
    else none
  | _, TState.acquire =>
    if g.lock = none then
      some ({ g with lock := some i }.setThread i TState.critical)
    else none
  | Prog.csrf, TState.critical =>
    match g.tokenVal, g.expiryOk with
    | some t, true => some (g.setThread i (TState.releasing (some t)))
    | _, _ =>
      some ({ g with csrfFetches := g.csrfFetches + 1 }.setThread i
        TState.fetching)
  | Prog.login, TState.critical =>
    if g.loggedIn then some (g.setThread i (TState.releasing none))
    else some (g.setThread i TState.fetching)
  | Prog.csrf, TState.fetching => some (g.setThread i (TState.writeTok i))
  | Prog.login, TState.fetching =>
    some ({ g with loginPosts := g.loginPosts + 1 }.setThread i
      TState.posting)
  | _, TState.writeTok t =>
    some ({ g with tokenVal := some t }.setThread i (TState.writeExp t))
  | _, TState.writeExp t =>
    some ({ g with expiryOk := true }.setThread i
      (TState.releasing (some t)))
  | _, TState.posting => some (g.setThread i TState.writeLogin)
  | _, TState.writeLogin =>
    some ({ g with loggedIn := true }.setThread i (TState.releasing none))
  | _, TState.releasing r =>
    some ({ g with lock := none }.setThread i (TState.done r))
  | _, TState.done _ => none

/-- All successors of a state under any scheduling choice. -/
def stepSucc (g : CState) : List CState :=
  [(0 : Fin 2), 1].filterMap (stepThread g)

/-- The initial state: lock free, empty cache, logged out, no requests
issued, both threads at their fast-path check. -/
def initState (p0 p1 : Prog) : CState :=
  { prog0 := p0, prog1 := p1, lock := none, tokenVal := none,
    expiryOk := false, loggedIn := false, csrfFetches := 0, loginPosts := 0,
    t0 := TState.fastCheck, t1 := TState.fastCheck }

/-- The four initial states (each thread runs either method). -/
def initStates : List CState :=
  [initState Prog.csrf Prog.csrf, initState Prog.csrf Prog.login,
   initState Prog.login Prog.csrf, initState Prog.login Prog.login]

/-- Boolean list membership by decidable equality. -/
def memB {α : Type} [DecidableEq α] (a : α) : List α → Bool
  | [] => false
  | x :: rest => if a = x then true else memB a rest

/-- Frontier-based exploration: add the frontier's unseen successors. -/
def exploreAux {α : Type} [DecidableEq α] (succ : α → List α) :
    Nat → List α → List α → List α
  | 0, _, acc => acc
  | n + 1, frontier, acc =>
    let fresh := (frontier.flatMap succ).foldl
      (fun ns s => if memB s acc || memB s ns then ns else ns ++ [s]) []
    exploreAux succ n fresh (acc ++ fresh)

/-- Every state reachable from an initial state (rounds beyond the
transition system's diameter). -/
def reachStates : List CState :=
  exploreAux stepSucc 24 initStates initStates

/-- A thread with a network operation in flight (the login-page GET of
`getCSRFToken`/`Login`, or the login POST). -/
def TState.inNetOp : TState → Bool
  | TState.fetching => true
  | TState.posting => true
  | _ => false

/-- A returned thread. -/
def TState.isDone : TState → Bool
  | TState.done _ => true
  | _ => false

/-- The value a returned thread yielded. -/
def TState.result : TState → Option (Fin 2)
  | TState.done r => r
  | _ => none

/-- The safety properties of one state: at most one login-page fetch by
`getCSRFToken` and at most one login POST ever issued; never two network
operations in flight; a lock-free state (the only kind a fast-path read can
observe) never exposes a partially-written cache entry; and when both
threads ran `getCSRFToken` and both returned, exactly one fetch happened
and both returned the very token the single fetcher wrote. -/
abbrev c8Prop (g : CState) : Prop :=
  g.csrfFetches ≤ 1 ∧ g.loginPosts ≤ 1 ∧
  ¬(g.t0.inNetOp = true ∧ g.t1.inNetOp = true) ∧
  (g.lock = none → ¬(g.tokenVal.isSome = true ∧ g.expiryOk = false)) ∧
  (g.prog0 = Prog.csrf → g.prog1 = Prog.csrf → g.t0.isDone = true →
    g.t1.isDone = true →
    g.csrfFetches = 1 ∧ g.t0.result = g.t1.result ∧
      (g.t0.result).isSome = true)

instance c8PropDecidable (g : CState) : Decidable (c8Prop g) := by
  refine @instDecidableAnd _ _ ?_ (@instDecidableAnd _ _ ?_
    (@instDecidableAnd _ _ ?_ (@instDecidableAnd _ _ ?_ ?_))) <;>
    infer_instance

/-- Decidable check of `c8Prop` on one state. -/
def c8Invariant (g : CState) : Bool :=
  decide (c8Prop g)

/-- The combined machine-checked certificate: the reachable-state list
contains the initial states, is closed under `stepSucc`, and every state in
it satisfies `c8Invariant`. -/
def c8Certificate : Bool :=
  initStates.all (fun s => memB s reachStates) &&
  reachStates.all (fun s => (stepSucc s).all (fun t => memB t reachStates)) &&
  reachStates.all c8Invariant

/-- Reachability from an initial state by interleaved atomic steps. -/
inductive ReachableFrom (init : CState) : CState → Prop where
  | refl : ReachableFrom init init
  | step {s t : CState} : ReachableFrom init s → t ∈ stepSucc s →
      ReachableFrom init t

/-! ### Tool-call response constructors (internal/common/response.go) -/

/-- An `mcp.Content` item as the constructors build it. -/
inductive McpContent where
  | text (s : String)
deriving DecidableEq, Repr

/-- `mcp.CallToolResultFor[any]` as the constructors populate it:
`IsError` (zero value `false` when omitted) and the content list. -/
structure CallToolResult where
  isError : Bool
  content : List McpContent
deriving DecidableEq, Repr

/-- `common.CreateSuccessResponse`, parameterized by the outcome of
`json.Marshal(data)`: a marshal failure yields the error envelope carrying
the human-readable message and still a `nil` Go error; success yields the
success envelope carrying the serialized payload.  The second component is
the function's Go `error` return. -/
def CreateSuccessResponse (marshalOutcome : Except String String) :
    CallToolResult × Option String :=
  match marshalOutcome with
  | Except.error e =>
    ({ isError := true, content := [McpContent.text ("结果转换失败: " ++ e)] },
     none)
  | Except.ok jsonData =>
    ({ isError := false, content := [McpContent.text jsonData] }, none)

/-- `common.CreateErrorResponse` after formatting: the error envelope with
the formatted message and a `nil` Go error. -/
def CreateErrorResponse (message : String) : CallToolResult × Option String :=
  ({ isError := true, content := [McpContent.text message] }, none)

/-- A well-formed success envelope. -/
def isSuccessEnvelope (r : CallToolResult) : Prop :=
  r.isError = false ∧ r.content ≠ []

/-- A well-formed error envelope. -/
def isErrorEnvelope (r : CallToolResult) : Prop :=
  r.isError = true ∧ r.content ≠ []

/-! ### Concrete sample values used to instantiate the theorems -/

/-- A sample factory: builds an adapter from the configuration. -/
def sampleFactory : ServiceFactory :=
  fun config _ =>
    Except.ok
      { serverId := 7, stype := config.getType,
        endpoint := config.getEndpoint }

/-- A registry holding only the Prometheus factory, cache not yet built. -/
def regProm : RegistryState :=
  { serviceFactories := [(ServiceTypePrometheus, sampleFactory)],
    supportedTypesCache := none, cacheValid := false }

/-- An enabled Prometheus service configuration. -/
def cfgProm : ServiceConfig :=
  { getType := ServiceTypePrometheus, getEndpoint := "/prometheus/mcp",
    isEnabled := true }

/-- A configuration of a kind no factory is registered for. -/
def cfgUnknown : ServiceConfig :=
  { getType := "graphite", getEndpoint := "/graphite/mcp",
    isEnabled := true }

/-- A Superset adapter mounted at the default Superset endpoint. -/
def svcA : Service :=
  { serverId := 1, stype := ServiceTypeSuperset, endpoint := "/superset/mcp" }

/-- A second, distinct Superset adapter sharing `svcA`'s endpoint. -/
def svcB : Service :=
  { serverId := 2, stype := ServiceTypeSuperset, endpoint := "/superset/mcp" }

/-- A gateway with `svcA` mounted. -/
def mux0 : MuxState :=
  { services := [("/superset/mcp", svcA)] }

/-- A login page whose markup carries a CSRF token. -/
def loginPageBody : String :=
  "<form><input type=\"hidden\" name=\"csrf_token\" value=\"tok123\"></form>"

/-- The login-page response carrying that markup. -/
def pageResp : HttpResponse :=
  { statusCode := 200, location := "", body := loginPageBody }

/-- A successful login-page GET. -/
def pageOk : Except String HttpResponse :=
  Except.ok pageResp

/-- A 200 login response carrying an authentication-failure marker. -/
def respLoginFail : HttpResponse :=
  { statusCode := 200, location := "", body := "Invalid login" }

/-- A redirect login response to the known post-login location. -/
def respLoginOk : HttpResponse :=
  { statusCode := 302, location := "/superset/welcome", body := "" }

/-- A database object as the backend serializes it. -/
def dbJson : Json :=
  Json.obj [("id", Json.num 3), ("database_name", Json.str "main")]

/-- The database `dbJson` decodes to. -/
def db3 : Database :=
  { id := 3, databaseName := "main", backend := "", sqlalchemyUri := "",
    createdOn := "", changedOn := "" }

/-- The envelope-with-`result` response shape. -/
def envBody : Json :=
  Json.obj [("count", Json.num 1), ("result", Json.arr [dbJson])]

/-- The bare-array response shape. -/
def arrBody : Json :=
  Json.arr [dbJson]

/-- A JSON object matching neither known response shape. -/
def badBody : Json :=
  Json.obj [("foo", Json.num 1)]

/-- Is this JSON value an array? -/
def Json.isArray : Json → Bool
  | Json.arr _ => true
  | _ => false

/-- Two column descriptors of a SQL execution response. -/
def sampleColumns : List SupersetColumn :=
  [{ columnName := "a", name := "a", ctype := "INT" },
   { columnName := "b", name := "b", ctype := "INT" }]

/-- A backend row object listing key `a` before key `b`. -/
def rowP : List (String × Json) :=
  [("a", Json.num 1), ("b", Json.num 2)]

/-- The same row object with its keys in the opposite order. -/
def rowQ : List (String × Json) :=
  [("b", Json.num 2), ("a", Json.num 1)]

/-- A SQL execution response with those columns and one row. -/
def sampleResp : SupersetResponse :=
  { queryId := 1, status := "success", data := [rowP],
    columns := sampleColumns, querySql := "SELECT 1" }

/-- The elements a caller can read through the slice returned by
`GetSupportedServiceTypes`. -/
def kindsResultContents (s : RegistryState) (h : SliceHeap) :
    List ServiceType :=
  ((GetSupportedServiceTypes s h).2.2).contents (GetSupportedServiceTypes s h).1

/-! ## Shared lemmas about the Go-map embedding -/

theorem memB_true_iff {α : Type} [DecidableEq α] (a : α) (l : List α) :
    memB a l = true ↔ a ∈ l := by
  induction l with
  | nil => simp [memB]
  | cons x rest ih => by_cases h : a = x <;> simp [memB, h, ih]

theorem mapGet_mapSet_self {α : Type} (m : List (String × α)) (k : String)
    (v : α) : mapGet (mapSet m k v) k = some v := by
  induction m with
  | nil => simp [mapSet, mapGet]
  | cons kv rest ih =>
    obtain ⟨k', v'⟩ := kv
    by_cases h : k' = k
    · simp [mapSet, h, mapGet]
    · simp [mapSet, h, mapGet, ih]

theorem mapGet_mapSet_other {α : Type} (m : List (String × α))
    (k k' : String) (v : α) (h : k' ≠ k) :
    mapGet (mapSet m k v) k' = mapGet m k' := by
  have h' : ¬(k = k') := fun hk => h hk.symm
  induction m with
  | nil => simp [mapSet, mapGet, h']
  | cons kv rest ih =>
    obtain ⟨k0, v0⟩ := kv
    by_cases h0 : k0 = k
    · subst h0
      simp [mapSet, mapGet, h']
    · simp [mapSet, h0, mapGet, ih]

theorem mapGet_mapDel_self {α : Type} (m : List (String × α)) (k : String) :
    mapGet (mapDel m k) k = none := by
  induction m with
  | nil => simp [mapDel, mapGet]
  | cons kv rest ih =>
    obtain ⟨k', v'⟩ := kv
    by_cases h : k' = k
    · simpa [mapDel, List.filter_cons, h] using ih
    · simpa [mapDel, List.filter_cons, h, mapGet] using ih

theorem mapGet_mapDel_other {α : Type} (m : List (String × α))
    (k k' : String) (h : k' ≠ k) :
    mapGet (mapDel m k) k' = mapGet m k' := by
  induction m with
  | nil => simp [mapDel, mapGet]
  | cons kv rest ih =>
    obtain ⟨k0, v0⟩ := kv
    by_cases h0 : k0 = k
    · subst h0
      have h1 : ¬(k0 = k') := fun hk => h hk.symm
      simpa [mapDel, List.filter_cons, mapGet, h1] using ih
    · by_cases h1 : k0 = k'
      · simp [mapDel, List.filter_cons, h0, mapGet, h1, h]
      · simpa [mapDel, List.filter_cons, h0, mapGet, h1] using ih

/-! ## C2 — registry dispatch -/

/-- C2: `CreateService` on a configuration whose kind has no registered
factory returns the `UnsupportedServiceError` for that kind and invokes no
factory; on a configuration whose kind has a registered factory it invokes
exactly that factory exactly once and returns its result. -/
theorem registry_create_dispatch (s : RegistryState) (config : ServiceConfig)
    (timeout : Nat) :
    (mapGet s.serviceFactories config.getType = none →
      CreateService s config timeout =
        (Except.error (GoError.unsupportedService config.getType), [])) ∧
    (∀ f, mapGet s.serviceFactories config.getType = some f →
      CreateService s config timeout = (f config timeout, [config.getType])) := by
  constructor
  · intro h
    simp [CreateService, h]
  · intro f h
    simp [CreateService, h]

/-- Witness for C2 at a registry holding only the Prometheus factory: the
unknown kind fails with `UnsupportedServiceError` and no invocation, the
registered kind yields exactly the factory's adapter with one invocation. -/
theorem registry_create_dispatch_witness :
    CreateService regProm cfgUnknown 1000 =
      (Except.error (GoError.unsupportedService "graphite"), []) ∧
    CreateService regProm cfgProm 1000 =
      (Except.ok
        { serverId := 7, stype := ServiceTypePrometheus,
          endpoint := "/prometheus/mcp" },
       [ServiceTypePrometheus]) := by
  constructor
  · exact (registry_create_dispatch regProm cfgUnknown 1000).1 rfl
  · exact (registry_create_dispatch regProm cfgProm 1000).2 sampleFactory rfl

/-! ## C3 — kind listing: mutation and defensive copying -/

/-- C3 counterexample: on a registry whose kinds cache is invalid,
`GetSupportedServiceTypes` does mutate internal registry state — it sets
`cacheValid` and installs a cache slice —, refuting "leaves all internal
registry state unchanged". -/
theorem supported_types_mutation_counterexample :
    regProm.cacheValid = false ∧
    (GetSupportedServiceTypes regProm SliceHeap.empty).2.1.cacheValid = true ∧
    (GetSupportedServiceTypes regProm SliceHeap.empty).2.1.supportedTypesCache
      ≠ regProm.supportedTypesCache := by
  refine ⟨rfl, rfl, by decide⟩

/-- C3 (amended): `GetSupportedServiceTypes` never mutates the factory map
(so no later factory lookup changes), and the slice it returns is a
defensive copy: it is never the allocation the registry keeps as its cache,
writing through it leaves the cached contents unchanged, and the elements
returned by a later `GetSupportedServiceTypes` call are unaffected by such
a write.  On a cache miss the call does (re)fill the kinds cache and set
`cacheValid`. -/
theorem supported_types_defensive_copy (s : RegistryState) (h : SliceHeap)
    (hwf : RegistryWF s h) :
    (GetSupportedServiceTypes s h).2.1.serviceFactories =
      s.serviceFactories ∧
    (∀ st, IsServiceTypeSupported (GetSupportedServiceTypes s h).2.1 st =
      IsServiceTypeSupported s st) ∧
    (∀ c, (GetSupportedServiceTypes s h).2.1.supportedTypesCache = some c →
      (GetSupportedServiceTypes s h).1 ≠ c ∧
      ∀ data, ((GetSupportedServiceTypes s h).2.2.write
          (GetSupportedServiceTypes s h).1 data).contents c =
        (GetSupportedServiceTypes s h).2.2.contents c) ∧
    (∀ data, kindsResultContents (GetSupportedServiceTypes s h).2.1
        ((GetSupportedServiceTypes s h).2.2.write
          (GetSupportedServiceTypes s h).1 data) =
      kindsResultContents (GetSupportedServiceTypes s h).2.1
        (GetSupportedServiceTypes s h).2.2) := by
  obtain ⟨fac, cache, valid⟩ := s
  rcases cache with _ | c0 <;> rcases valid with _ | _
  case some.true =>
    have hlt : c0 < h.nextId := hwf c0 rfl
    have hne : h.nextId ≠ c0 := fun he => absurd (he ▸ hlt) (lt_irrefl _)
    refine ⟨rfl, fun st => rfl, ?_, ?_⟩
    · intro c hc
      have hc0 : c0 = c := Option.some.inj hc
      subst hc0
      refine ⟨hne, fun data => ?_⟩
      simp [GetSupportedServiceTypes, SliceHeap.alloc, SliceHeap.write, hne.symm]
    · intro data
      simp [kindsResultContents, GetSupportedServiceTypes, SliceHeap.alloc,
        SliceHeap.write, hne.symm, Ne.symm hne]
  all_goals {
    refine ⟨rfl, fun st => rfl, ?_, ?_⟩
    · intro c hc
      have hc0 : h.nextId + 1 = c := Option.some.inj hc
      subst hc0
      refine ⟨Nat.ne_of_lt (Nat.lt_succ_self _), fun data => ?_⟩
      simp [GetSupportedServiceTypes, SliceHeap.alloc, SliceHeap.write,
        Nat.succ_ne_self]
    · intro data
      simp [kindsResultContents, GetSupportedServiceTypes, SliceHeap.alloc,
        SliceHeap.write, Nat.succ_ne_self]
  }

/-- Witness for C3 (amended) on the single-factory registry with invalid
cache: the factory map survives the call and the returned slice differs
from the installed cache allocation. -/
theorem supported_types_defensive_copy_witness :
    (GetSupportedServiceTypes regProm SliceHeap.empty).2.1.serviceFactories =
      regProm.serviceFactories ∧
    (GetSupportedServiceTypes regProm SliceHeap.empty).1 ≠ 1 := by
  have hwf : RegistryWF regProm SliceHeap.empty := by
    intro c hc
    cases hc
  refine ⟨(supported_types_defensive_copy regProm SliceHeap.empty hwf).1, ?_⟩
  exact (((supported_types_defensive_copy regProm SliceHeap.empty hwf).2.2.1
    1 rfl)).1

/-! ## C1 — request routing versus the Start-time snapshot -/

/-- C1 counterexample: after `Start`, an `AddService` that replaces the
adapter at a mounted path changes the routing table but not the adapter
answering live requests — the listener still dispatches to the Start-time
snapshot's adapter, refuting per-request resolution against the current
table. -/
theorem mux_routing_counterexample :
    mapGet ((mux0.startSystem.applyOps [MuxOp.add svcB]).live.services)
      "/superset/mcp" = some svcB ∧
    (mux0.startSystem.applyOps [MuxOp.add svcB]).dispatch "/superset/mcp" =
      some svcA.serverId ∧
    (mux0.startSystem.applyOps [MuxOp.add svcB]).dispatch "/superset/mcp" ≠
      (mapGet ((mux0.startSystem.applyOps [MuxOp.add svcB]).live.services)
        "/superset/mcp").map Service.serverId := by
  refine ⟨by decide, by decide, by decide⟩

/-- C1 (amended): after `Start()`, every inbound request to a mounted
endpoint path is dispatched to the adapter captured in the Start-time
snapshot of the routing table; `AddService`/`RemoveService` calls made after
`Start()` mutate the routing table but never change which adapter handles
subsequent live requests. -/
theorem mux_routing_snapshot (s : MuxState) (ops : List MuxOp)
    (path : String) :
    ((s.startSystem.applyOps ops).dispatch path =
      s.startSystem.dispatch path) ∧
    (s.startSystem.dispatch path =
      (mapGet s.services path).map Service.serverId) :=
  ⟨rfl, rfl⟩

/-! ## C10 — RemoveService frame conditions -/

/-- C10: `RemoveService` at an unmounted path is a no-op that closes
nothing; at a mounted path it closes exactly that adapter, removes exactly
that mapping and leaves every other mapping untouched. -/
theorem remove_service_frame (s : MuxState) (endpoint : String) :
    (mapGet s.services endpoint = none →
      s.removeService endpoint = (s, [])) ∧
    (∀ svc, mapGet s.services endpoint = some svc →
      (s.removeService endpoint).2 = [svc] ∧
      mapGet (s.removeService endpoint).1.services endpoint = none ∧
      (∀ e, e ≠ endpoint →
        mapGet (s.removeService endpoint).1.services e =
          mapGet s.services e)) := by
  constructor
  · intro h
    simp [MuxState.removeService, h]
  · intro svc h
    refine ⟨by simp [MuxState.removeService, h], ?_, ?_⟩
    · simp [MuxState.removeService, h, mapGet_mapDel_self]
    · intro e he
      simp [MuxState.removeService, h, mapGet_mapDel_other _ _ _ he]

/-- Witness for C10 on the one-adapter gateway: removing an unmounted path
changes nothing and closes nothing; removing the mounted path closes
exactly that adapter and unmounts it. -/
theorem remove_service_frame_witness :
    mux0.removeService "/prometheus/mcp" = (mux0, []) ∧
    (mux0.removeService "/superset/mcp").2 = [svcA] ∧
    mapGet (mux0.removeService "/superset/mcp").1.services "/superset/mcp" =
      none := by
  refine ⟨(remove_service_frame mux0 "/prometheus/mcp").1 rfl, ?_, ?_⟩
  · exact ((remove_service_frame mux0 "/superset/mcp").2 svcA rfl).1
  · exact ((remove_service_frame mux0 "/superset/mcp").2 svcA rfl).2.1

/-! ## C4 — login failure handling -/

theorem loginSuccessClass_of_redirect (resp : HttpResponse)
    (h : (resp.statusCode = 302 ∨ resp.statusCode = 303) ∧
      isSuccessfulRedirect resp.location = true) :
    loginSuccessClass resp = true := by
  rcases h with ⟨h1 | h1, h2⟩ <;> simp [loginSuccessClass, h1, h2]

theorem loginSuccessClass_of_200 (resp : HttpResponse)
    (h200 : resp.statusCode = 200) (herr : isLoginError resp.body = false)
    (hsucc : isLoginSuccess resp.body = true) :
    loginSuccessClass resp = true := by
  simp [loginSuccessClass, h200, herr, hsucc]

/-- C4: starting from a logged-out client, `Login` issues at most one
credential POST (no internal retry); it reports success exactly when it
sets `loggedIn`; `loggedIn` becomes true only when the POST produced a
response classified successful; and any response not classified successful
— in particular a body carrying a known authentication-failure marker —
yields an error and leaves `loggedIn` false. -/
theorem login_failure_leaves_logged_out (cache : CsrfTokenCache)
    (pageOutcome postOutcome : Except String HttpResponse) :
    (Client.login ⟨false, cache⟩ pageOutcome postOutcome).2.2 ≤ 1 ∧
    ((Client.login ⟨false, cache⟩ pageOutcome postOutcome).1.loggedIn = true ↔
      (Client.login ⟨false, cache⟩ pageOutcome postOutcome).2.1 =
        Except.ok ()) ∧
    ((Client.login ⟨false, cache⟩ pageOutcome postOutcome).1.loggedIn = true →
      ∃ resp, postOutcome = Except.ok resp ∧ loginSuccessClass resp = true) ∧
    (∀ resp, postOutcome = Except.ok resp → loginSuccessClass resp = false →
      (Client.login ⟨false, cache⟩ pageOutcome postOutcome).1.loggedIn =
        false ∧
      ∃ e, (Client.login ⟨false, cache⟩ pageOutcome postOutcome).2.1 =
        Except.error e) := by
  rcases hpg : Client.getCSRFTokenForLogin pageOutcome with e | tok
  · refine ⟨?_, ?_, ?_, ?_⟩ <;>
      simp [Client.login, hpg]
  · rcases hpo : postOutcome with e | resp
    · refine ⟨?_, ?_, ?_, ?_⟩ <;>
        simp [Client.login, hpg, hpo]
    · by_cases h1 : (resp.statusCode = 302 ∨ resp.statusCode = 303) ∧
        isSuccessfulRedirect resp.location = true
      · have hcls := loginSuccessClass_of_redirect resp h1
        refine ⟨?_, ?_, ?_, ?_⟩
        · simp [Client.login, hpg, hpo, if_pos h1]
        · simp [Client.login, hpg, hpo, if_pos h1]
        · intro _
          exact ⟨resp, rfl, hcls⟩
        · intro resp' hresp' hcls'
          obtain rfl : resp = resp' := Except.ok.inj hresp'
          rw [hcls] at hcls'
          cases hcls'
      · by_cases h2 : resp.statusCode = 200
        · by_cases h3 : isLoginError resp.body = true
          · refine ⟨?_, ?_, ?_, ?_⟩ <;>
              simp [Client.login, hpg, hpo, if_neg h1, h2, h3]
          · have h3' : isLoginError resp.body = false :=
              Bool.eq_false_iff.mpr h3
            by_cases h4 : isLoginSuccess resp.body = true
            · have hcls := loginSuccessClass_of_200 resp h2 h3' h4
              refine ⟨?_, ?_, ?_, ?_⟩
              · simp [Client.login, hpg, hpo, if_neg h1, h2, h3, h4]
              · simp [Client.login, hpg, hpo, if_neg h1, h2, h3, h4]
              · intro _
                exact ⟨resp, rfl, hcls⟩
              · intro resp' hresp' hcls'
                obtain rfl : resp = resp' := Except.ok.inj hresp'
                rw [hcls] at hcls'
                cases hcls'
            · refine ⟨?_, ?_, ?_, ?_⟩ <;>
                simp [Client.login, hpg, hpo, if_neg h1, h2, h3, h4]
        · refine ⟨?_, ?_, ?_, ?_⟩ <;>
            simp [Client.login, hpg, hpo, if_neg h1, h2]

/-- Witness for C4: with a valid login page but a 200 response carrying the
`Invalid login` failure marker, `Login` returns an error, leaves `loggedIn`
false, and issued exactly one POST. -/
theorem login_failure_leaves_logged_out_witness :
    (Client.login ⟨false, { token := "", expiresAt := 0 }⟩ pageOk
      (Except.ok respLoginFail)).1.loggedIn = false ∧
    (Client.login ⟨false, { token := "", expiresAt := 0 }⟩ pageOk
      (Except.ok respLoginFail)).2.2 ≤ 1 := by
  have h := login_failure_leaves_logged_out { token := "", expiresAt := 0 }
    pageOk (Except.ok respLoginFail)
  have h4 := h.2.2.2 respLoginFail rfl (by decide)
  exact ⟨h4.1, h.1⟩

/-! ## C5 — CSRF token refresh on expiry -/

/-- C5: whenever the cached CSRF token is empty or its expiry has passed,
`getCSRFToken` issues exactly one fresh login-page fetch and never returns
the stale cache: a transport failure or a body without the token pattern is
a hard error that leaves the cache untouched and synthesizes nothing, and a
matched token is cached with the fixed time-to-live and returned. -/
theorem csrf_refresh_on_expiry (st : ClientState) (now : Nat)
    (fetchOutcome : Except String HttpResponse)
    (hstale : ¬(st.csrfCache.token ≠ "" ∧ now < st.csrfCache.expiresAt)) :
    (Client.getCSRFToken st now fetchOutcome).2.2 = 1 ∧
    (∀ e, fetchOutcome = Except.error e →
      Client.getCSRFToken st now fetchOutcome =
        (st, Except.error ("获取登录页面失败: " ++ e), 1)) ∧
    (∀ resp, fetchOutcome = Except.ok resp →
      (extractCsrfToken resp.body = none →
        Client.getCSRFToken st now fetchOutcome =
          (st, Except.error "未找到CSRF令牌", 1)) ∧
      (∀ tok, extractCsrfToken resp.body = some tok →
        Client.getCSRFToken st now fetchOutcome =
          ({ st with csrfCache :=
              { token := tok, expiresAt := now + csrfTokenCacheDuration } },
           Except.ok tok, 1))) := by
  refine ⟨?_, ?_, ?_⟩
  · rcases hfo : fetchOutcome with e | resp
    · simp [Client.getCSRFToken, if_neg hstale]
    · rcases hex : extractCsrfToken resp.body with _ | tok <;>
        simp [Client.getCSRFToken, if_neg hstale, hex]
  · intro e hfo
    subst hfo
    simp [Client.getCSRFToken, if_neg hstale]
  · intro resp hfo
    subst hfo
    constructor
    · intro hex
      simp [Client.getCSRFToken, if_neg hstale, hex]
    · intro tok hex
      simp [Client.getCSRFToken, if_neg hstale, hex]

/-- Witness for C5 at a fresh client (empty cache): the fetch of the sample
login page caches and returns its token with the fixed time-to-live. -/
theorem csrf_refresh_on_expiry_witness :
    Client.getCSRFToken ClientState.initial 0 pageOk =
      ({ loggedIn := false,
         csrfCache :=
           { token := "tok123", expiresAt := csrfTokenCacheDuration } },
       Except.ok "tok123", 1) := by
  exact ((csrf_refresh_on_expiry ClientState.initial 0 pageOk
    (by decide)).2.2 pageResp rfl).2 "tok123" rfl

/-! ## C6 — SQL result normalization and positional alignment -/

/-- C6: `executeSQLInternal` re-projects every backend row object through
the backend's own column ordering: the returned columns are the column
names in descriptor order, every normalized row has exactly one cell per
returned column, the cell at position `j` is the row object's value for
the `j`-th returned column name (`null` when the key is absent), and the
projection is invariant under the row object's key order. -/
theorem sql_result_alignment (r : SupersetResponse) :
    (normalizeSQLResult r).columns = r.columns.map SupersetColumn.name ∧
    (normalizeSQLResult r).data =
      r.data.map (fun row => r.columns.map (fun col => rowCell row col.name)) ∧
    (∀ row, (r.columns.map (fun col => rowCell row col.name)).length =
      (normalizeSQLResult r).columns.length) ∧
    (∀ row (j : Nat), (r.columns.map (fun col => rowCell row col.name))[j]? =
      ((normalizeSQLResult r).columns[j]?).map (fun nm => rowCell row nm)) ∧
    (∀ row₁ row₂, (∀ k, mapGet row₁ k = mapGet row₂ k) →
      r.columns.map (fun col => rowCell row₁ col.name) =
        r.columns.map (fun col => rowCell row₂ col.name)) := by
  refine ⟨rfl, rfl, ?_, ?_, ?_⟩
  · intro row
    simp [normalizeSQLResult]
  · intro row j
    simp [normalizeSQLResult, List.getElem?_map, Option.map_map,
      Function.comp]
    rfl
  · intro row₁ row₂ hk
    apply List.map_congr_left
    intro col _
    simp [rowCell, hk col.name]

/-- Witness for C6: two row objects holding the same keys in opposite
orders project to the same positional row under the sample columns. -/
theorem sql_result_alignment_witness :
    sampleResp.columns.map (fun col => rowCell rowP col.name) =
      sampleResp.columns.map (fun col => rowCell rowQ col.name) := by
  apply (sql_result_alignment sampleResp).2.2.2.2 rowP rowQ
  intro k
  by_cases ha : "a" = k <;> by_cases hb : "b" = k
  · exact absurd (ha.trans hb.symm) (by decide)
  · simp [rowP, rowQ, mapGet, ha, hb]
  · simp [rowP, rowQ, mapGet, ha, hb]
  · simp [rowP, rowQ, mapGet, ha, hb]

/-! ## C7 — database list decoding -/

/-- C7 counterexample: the body `{"foo": 1}` matches neither known shape —
it is not an array and no key of it matches `result` — yet `GetDatabases`
decodes it to the empty database list instead of returning an error,
because `json.Unmarshal` accepts any JSON object for the envelope struct. -/
theorem databases_decode_counterexample :
    decodeGetDatabases (Json.obj [("foo", Json.num 1)]) = Except.ok [] ∧
    jsonFieldGet [("foo", Json.num 1)] "result" = none ∧
    Json.isArray (Json.obj [("foo", Json.num 1)]) = false :=
  ⟨rfl, rfl, rfl⟩

/-- C7 (amended): `GetDatabases` attempts the envelope decode first and
falls back to the bare-array decode only when the envelope decode fails;
an envelope object with a decodable `result` field and a decodable bare
array both decode to the corresponding database list; a body that is
neither an object nor an array (nor `null`) fails both decodes and yields
an error; but a JSON object none of whose keys matches `result` (keys are
matched case-insensitively, the last duplicate winning) is accepted by the
envelope decode and yields the empty list rather than an error. -/
theorem databases_decode_shapes (body : Json) :
    (∀ fields v dbs, body = Json.obj fields →
      jsonFieldGet fields "result" = some v →
      decodeDatabaseList v = Except.ok dbs →
      decodeGetDatabases body = Except.ok dbs) ∧
    (∀ xs dbs, body = Json.arr xs →
      decodeDatabaseList body = Except.ok dbs →
      decodeGetDatabases body = Except.ok dbs) ∧
    (∀ fields, body = Json.obj fields →
      jsonFieldGet fields "result" = none →
      decodeGetDatabases body = Except.ok []) ∧
    ((∀ fields, body ≠ Json.obj fields) → (∀ xs, body ≠ Json.arr xs) →
      body ≠ Json.null → ∃ e, decodeGetDatabases body = Except.error e) := by
  refine ⟨?_, ?_, ?_, ?_⟩
  · intro fields v dbs hb hres hdbs
    subst hb
    simp [decodeGetDatabases, decodeEnvelope, hres, hdbs]
  · intro xs dbs hb hdbs
    subst hb
    simp [decodeGetDatabases, decodeEnvelope, hdbs]
  · intro fields hb hres
    subst hb
    simp [decodeGetDatabases, decodeEnvelope, hres]
  · intro hobj harr hnull
    rcases body with _ | b | n | s | xs | fields
    · exact absurd rfl hnull
    · exact ⟨_, rfl⟩
    · exact ⟨_, rfl⟩
    · exact ⟨_, rfl⟩
    · exact absurd rfl (harr xs)
    · exact absurd rfl (hobj fields)

/-- Witness for C7 (amended): the envelope-with-`result` sample, the same
envelope with the Go-matched Title-case `Result` key, and the bare-array
sample all decode to the one-element database list. -/
theorem databases_decode_shapes_witness :
    decodeGetDatabases envBody = Except.ok [db3] ∧
    decodeGetDatabases (Json.obj [("Result", Json.arr [dbJson])]) =
      Except.ok [db3] ∧
    decodeGetDatabases arrBody = Except.ok [db3] := by
  refine ⟨?_, ?_, ?_⟩
  · exact (databases_decode_shapes envBody).1
      [("count", Json.num 1), ("result", Json.arr [dbJson])]
      (Json.arr [dbJson]) [db3] rfl rfl rfl
  · exact (databases_decode_shapes (Json.obj [("Result", Json.arr [dbJson])])).1
      [("Result", Json.arr [dbJson])] (Json.arr [dbJson]) [db3] rfl rfl rfl
  · exact (databases_decode_shapes arrBody).2.1 [dbJson] [db3] rfl rfl

/-! ## C9 — tool-call response envelopes -/

/-- C9: the response constructors always hand the caller a well-formed
envelope that is exactly one of success or error, with a `nil` Go error;
in particular a `json.Marshal` failure inside `CreateSuccessResponse`
produces the error envelope carrying the human-readable conversion message
rather than propagating the failure. -/
theorem response_envelope_wellformed (marshalOutcome : Except String String)
    (message : String) :
    (CreateSuccessResponse marshalOutcome).2 = none ∧
    ((isSuccessEnvelope (CreateSuccessResponse marshalOutcome).1 ∧
        ¬isErrorEnvelope (CreateSuccessResponse marshalOutcome).1) ∨
      (isErrorEnvelope (CreateSuccessResponse marshalOutcome).1 ∧
        ¬isSuccessEnvelope (CreateSuccessResponse marshalOutcome).1)) ∧
    (∀ e, marshalOutcome = Except.error e →
      isErrorEnvelope (CreateSuccessResponse marshalOutcome).1 ∧
      (CreateSuccessResponse marshalOutcome).1.content =
        [McpContent.text ("结果转换失败: " ++ e)]) ∧
    (isErrorEnvelope (CreateErrorResponse message).1 ∧
      (CreateErrorResponse message).2 = none) := by
  rcases marshalOutcome with e | payload
  · refine ⟨rfl, Or.inr ⟨⟨rfl, by simp [CreateSuccessResponse]⟩, ?_⟩, ?_,
      ⟨rfl, by simp [CreateErrorResponse]⟩, rfl⟩
    · intro hsucc
      cases hsucc.1
    · intro e' he'
      obtain rfl : e = e' := Except.error.inj he'
      exact ⟨⟨rfl, by simp [CreateSuccessResponse]⟩, rfl⟩
  · refine ⟨rfl, Or.inl ⟨⟨rfl, by simp [CreateSuccessResponse]⟩, ?_⟩, ?_,
      ⟨rfl, by simp [CreateErrorResponse]⟩, rfl⟩
    · intro herr
      cases herr.1
    · intro e' he'
      cases he'

/-- Witness for C9 at a failing marshal: the caller still receives an
envelope — the error envelope with the conversion message — and a `nil`
Go error. -/
theorem response_envelope_wellformed_witness :
    isErrorEnvelope (CreateSuccessResponse (Except.error "boom")).1 ∧
    (CreateSuccessResponse (Except.error "boom")).2 = none := by
  exact ⟨((response_envelope_wellformed (Except.error "boom") "x").2.2.1
      "boom" rfl).1,
    (response_envelope_wellformed (Except.error "boom") "x").1⟩

/-! ## C8 — concurrency: single-flight token fetch and login -/

set_option maxRecDepth 100000 in
set_option maxHeartbeats 4000000 in
theorem c8Certificate_eq : c8Certificate = true := by rfl

theorem c8_inits_in :
    initStates.all (fun s => memB s reachStates) = true := by
  have h := c8Certificate_eq
  unfold c8Certificate at h
  rw [Bool.and_eq_true, Bool.and_eq_true] at h
  exact h.1.1

theorem c8_closed :
    reachStates.all
      (fun s => (stepSucc s).all (fun t => memB t reachStates)) = true := by
  have h := c8Certificate_eq
  unfold c8Certificate at h
  rw [Bool.and_eq_true, Bool.and_eq_true] at h
  exact h.1.2

theorem c8_inv_all : reachStates.all c8Invariant = true := by
  have h := c8Certificate_eq
  unfold c8Certificate at h
  rw [Bool.and_eq_true] at h
  exact h.2

theorem c8_reach_mem (p0 p1 : Prog) (g : CState)
    (h : ReachableFrom (initState p0 p1) g) :
    memB g reachStates = true := by
  induction h with
  | refl =>
    have hin : initState p0 p1 ∈ initStates := by
      cases p0 <;> cases p1 <;> simp [initStates]
    exact List.all_eq_true.mp c8_inits_in _ hin
  | step hr hmem ih =>
    have hs := (memB_true_iff _ _).mp ih
    have hall := List.all_eq_true.mp c8_closed _ hs
    exact List.all_eq_true.mp hall _ hmem

/-- C8: in every state reachable from two threads concurrently entering
`getCSRFToken`/`Login` on one freshly constructed client, at most one
login-page fetch and at most one credential POST have been issued, never
are two network operations in flight at once, no lock-free state (the only
kind the fast-path read can observe) exposes a partially-written cache
entry, and when both threads ran `getCSRFToken` and both returned, exactly
one fetch happened and both returned the token the single fetcher wrote. -/
theorem csrf_login_single_flight (p0 p1 : Prog) (g : CState)
    (h : ReachableFrom (initState p0 p1) g) : c8Prop g := by
  have hmem := (memB_true_iff g reachStates).mp (c8_reach_mem p0 p1 g h)
  have hinv := List.all_eq_true.mp c8_inv_all g hmem
  exact of_decide_eq_true hinv

/-- Witness for C8 at the initial state of two concurrent `getCSRFToken`
callers: the request counters already satisfy the single-flight bounds. -/
theorem csrf_login_single_flight_witness :
    (initState Prog.csrf Prog.csrf).csrfFetches ≤ 1 ∧
    (initState Prog.csrf Prog.csrf).loginPosts ≤ 1 :=
  ⟨(csrf_login_single_flight Prog.csrf Prog.csrf
      (initState Prog.csrf Prog.csrf) ReachableFrom.refl).1,
   (csrf_login_single_flight Prog.csrf Prog.csrf
      (initState Prog.csrf Prog.csrf) ReachableFrom.refl).2.1⟩

end McpServer
